import Mathlib

/-!
Shallow embedding of `src/main.py` (a daily-goal Telegram bot) and proofs
about its scheduling and conversation-state behaviour.

The per-chat record `user_states[chat_id]` is a Python dict whose keys may be
absent; it is embedded as a structure of `Option` fields.  The JobQueue is a
list of jobs; `run_daily` appends, `schedule_removal` filters.  Handlers are
pure functions from the global state and the incoming update to the new state
plus the list of outbound actions; a raised Python exception is an
`Except.error` carrying the exception kind together with the state and the
actions performed before the raise.
-/

namespace DailyBot

/-- One inline keyboard: rows of buttons, each button `(text, callback_data)`. -/
abbrev Keyboard := List (List (String × String))

/-- Outbound effects requested from the telegram transport (or the logger). -/
inductive Action where
  | answerCallbackQuery
  | editMarkup (kb : Keyboard)
  | sendMessage (chatId : Int) (text : String) (markup : Option Keyboard)
  | replyText (text : String)
  | logInfo (text : String)
deriving DecidableEq, Repr

/-- Python exceptions that can escape the handlers we model. -/
inductive PyError where
  | unpackError
  | keyError
deriving DecidableEq, Repr

/-- Embedding of the per-chat dict stored in `user_states`: every key may be
absent, hence `Option` fields.  `messages` plays the role of the spec's
`promptRefs`. -/
structure UserData where
  state : Option String := none
  answers : Option (List (String × Option String)) := none
  messages : Option (List (String × Nat)) := none
  send_hour : Option Int := none
  send_minute : Option Int := none
deriving DecidableEq, Repr

/-- The freshly created `{}` dict. -/
def emptyUserData : UserData := {}

/-- The global `user_states` map, as an association list keyed by chat id. -/
abbrev UserStates := List (Int × UserData)

/-- Python dict assignment `d[k] = v`: replace the first binding of `k`,
append at the end when `k` is absent (dicts preserve insertion order). -/
def dictSet {κ α : Type} [DecidableEq κ] : List (κ × α) → κ → α → List (κ × α)
  | [], k, v => [(k, v)]
  | (k1, v1) :: rest, k, v =>
    if k1 = k then (k, v) :: rest else (k1, v1) :: dictSet rest k v

/-- Python `d.setdefault(k, v)` restricted to its effect on the dict. -/
def setdefaultD {κ α : Type} [DecidableEq κ] (d : List (κ × α)) (k : κ) (v : α) :
    List (κ × α) :=
  match List.lookup k d with
  | some _ => d
  | none => d ++ [(k, v)]

/-- Python `s.split(sep)` for a one-character separator, on the char list. -/
def splitOnChar (sep : Char) : List Char → List (List Char)
  | [] => [[]]
  | c :: cs =>
    match splitOnChar sep cs with
    | [] => [[]]
    | h :: t => if c = sep then [] :: h :: t else (c :: h) :: t

/-- Python `s.split(sep)` for a one-character separator. -/
def pySplit (sep : Char) (s : String) : List String :=
  (splitOnChar sep s.toList).map String.mk

/-- No two consecutive underscores. -/
def noDoubleUnderscore : List Char → Bool
  | [] => true
  | [_] => true
  | a :: b :: rest => !(a = '_' && b = '_') && noDoubleUnderscore (b :: rest)

/-- Digit run as accepted by Python `int`: nonempty, first and last characters
are digits, every character a digit or `_`, no `__` (ASCII digits only). -/
def pyDigits (cs : List Char) : Option Nat :=
  if (match cs with | [] => false | c :: _ => c.isDigit)
      && (match cs.getLast? with | none => false | some c => c.isDigit)
      && cs.all (fun c => c.isDigit || c = '_')
      && noDoubleUnderscore cs then
    some (cs.foldl (fun acc c => if c = '_' then acc else acc * 10 + (c.toNat - 48)) 0)
  else
    none

/-- Strip leading and trailing whitespace from a char list. -/
def trimChars (cs : List Char) : List Char :=
  ((cs.dropWhile Char.isWhitespace).reverse.dropWhile Char.isWhitespace).reverse

/-- Python `int(s)`: strip whitespace, optional sign, digit run. -/
def pyParseInt (s : String) : Option Int :=
  match trimChars s.toList with
  | '+' :: rest => (pyDigits rest).map Int.ofNat
  | '-' :: rest => (pyDigits rest).map (fun n => -(n : Int))
  | cs => (pyDigits cs).map Int.ofNat

-- === settings from main.py ===

def DEFAULT_HOUR : Int := 1
def DEFAULT_MINUTE : Int := 0
def JOB_NAME : String := "daily_questions_job"
def QUESTIONS : List String := ["Цель на сегодня", "Новое", "Развитие", "Спорт"]

/-- A registration in the JobQueue as created by `run_daily`. -/
structure Job where
  name : String
  data : Int
  hour : Int
  minute : Int
  days : List Nat
  tz : String
deriving DecidableEq, Repr

/-- `_remove_existing_job`: drop every job whose name is `jobName` and whose
data equals `chatId`. -/
def remove_existing_job (jobs : List Job) (jobName : String) (chatId : Int) :
    List Job :=
  jobs.filter (fun j => !(j.name = jobName && j.data = chatId))

/-- The job `_add_daily_job` registers. -/
def mkDailyJob (chatId : Int) (hour minute : Int) : Job :=
  ⟨JOB_NAME, chatId, hour, minute, [0, 1, 2, 3, 4, 5, 6], "Europe/Moscow"⟩

/-- `_add_daily_job`: `run_daily` appends a new registration. -/
def add_daily_job (jobs : List Job) (chatId : Int) (hour minute : Int) :
    List Job :=
  jobs ++ [mkDailyJob chatId hour minute]

/-- The jobs currently registered for `id` (name and data both match, as in
`_remove_existing_job`). -/
def triggersFor (id : Int) (jobs : List Job) : List Job :=
  jobs.filter (fun j => j.name = JOB_NAME && j.data = id)

-- === command handlers ===

/-- The success parse of the `/settime` argument: split on `:`, two-way
unpack, `int` both parts, range-check; `none` on any `ValueError` (all are
caught by the bare `except`). -/
def settimeParse (t : String) : Option (Int × Int) :=
  match pySplit ':' t with
  | [hs, ms] =>
    match pyParseInt hs, pyParseInt ms with
    | some h, some m =>
      if 0 ≤ h ∧ h < 24 ∧ 0 ≤ m ∧ m < 60 then some (h, m) else none
    | _, _ => none
  | _ => none

def startGreeting : String :=
  "Привет! Я бот, который каждый день в назначенное время будет задавать 4 вопроса"

/-- `start_command`. -/
def start_command (states : UserStates) (jobs : List Job) (chatId : Int) :
    UserStates × List Job × List Action :=
  let states0 := setdefaultD states chatId emptyUserData
  let u := (List.lookup chatId states0).getD emptyUserData
  let u1 : UserData :=
    { u with state := some (u.state.getD "idle"),
             send_hour := some (u.send_hour.getD DEFAULT_HOUR),
             send_minute := some (u.send_minute.getD DEFAULT_MINUTE) }
  let states1 := dictSet states0 chatId u1
  let jobs1 := add_daily_job (remove_existing_job jobs JOB_NAME chatId) chatId
      (u.send_hour.getD DEFAULT_HOUR) (u.send_minute.getD DEFAULT_MINUTE)
  (states1, jobs1, [Action.replyText startGreeting])

def pad2 (n : Int) : String :=
  if n < 10 then "0" ++ toString n else toString n

def settimeOkMsg (h m : Int) : String :=
  "Новое время ежедневной рассылки установлено: " ++ pad2 h ++ ":" ++ pad2 m ++ " (МСК)."

def settimeUsageMsg : String :=
  "Формат команды: /settime ЧЧ:ММ (например, /settime 02:30)."

def settimeBadTimeMsg : String :=
  "Неверный формат времени. Пример: /settime 02:30"

/-- `settime_command`.  Note the `setdefault` on `user_states` happens before
any validation, exactly as in the source. -/
def settime_command (states : UserStates) (jobs : List Job) (chatId : Int)
    (args : List String) : UserStates × List Job × List Action :=
  let states0 := setdefaultD states chatId emptyUserData
  let u := (List.lookup chatId states0).getD emptyUserData
  match args with
  | [timeStr] =>
    match settimeParse timeStr with
    | some (h, m) =>
      let u1 : UserData := { u with send_hour := some h, send_minute := some m }
      let states1 := dictSet states0 chatId u1
      let jobs1 := add_daily_job (remove_existing_job jobs JOB_NAME chatId) chatId h m
      (states1, jobs1, [Action.replyText (settimeOkMsg h m)])
    | none => (states0, jobs, [Action.replyText settimeBadTimeMsg])
  | _ => (states0, jobs, [Action.replyText settimeUsageMsg])

-- === button callback ===

/-- `all(v is not None for v in answers.values())`. -/
def allAnswered (ans : List (String × Option String)) : Bool :=
  ans.all (fun p => p.2.isSome)

/-- `button_callback`.  `payload` is `query.data`; `editOk` tells whether the
`edit_reply_markup` call would succeed (its failure is swallowed by the
`try/except: pass`).  An uncaught exception is returned as `.error` with the
state and actions at the point of the raise. -/
def button_callback (states : UserStates) (chatId : Int) (payload : String)
    (editOk : Bool) :
    Except (PyError × UserStates × List Action) (UserStates × List Action) :=
  let acts0 := [Action.answerCallbackQuery]
  match List.lookup chatId states with
  | none => .ok (states, acts0)
  | some u =>
    if u = emptyUserData ∨ u.state ≠ some "answering" then .ok (states, acts0)
    else
      match pySplit '|' payload with
      | [question, answer] =>
        match u.answers with
        | none => .error (.keyError, states, acts0)
        | some ans =>
          if (List.lookup question ans).getD none ≠ none then .ok (states, acts0)
          else
            let ans1 := dictSet ans question (some answer)
            let u1 : UserData := { u with answers := some ans1 }
            let kb : Keyboard :=
              if answer = "yes" then [[("✅", "chosen")]] else [[("❌", "chosen")]]
            let acts1 := acts0 ++ [Action.editMarkup kb]
            let editResult : Except Unit Unit := if editOk then .ok () else .error ()
            let _ := match editResult with
              | .ok _ => ()
              | .error _ => ()
            if allAnswered ans1 then
              let u2 : UserData := { u1 with state := some "waiting_for_tomorrow_goal" }
              .ok (dictSet states chatId u2,
                   acts1 ++ [Action.sendMessage chatId "Цель на завтра?" none])
            else
              .ok (dictSet states chatId u1, acts1)
      | _ => .error (.unpackError, states, acts0)

/-- Running `button_callback` under the framework, which logs and otherwise
discards an exception escaping a handler: state as at the raise point. -/
def stepCallback (chatId : Int) (states : UserStates) (payload : String) :
    UserStates × List Action :=
  match button_callback states chatId payload true with
  | .ok r => r
  | .error (_, s, a) => (s, a)

-- === message handler ===

def ackMsg : String := "Цель на завтра принята! Жду тебя завтра в назначенное время."

/-- `message_handler`: free text outside commands.  `if not user_data` is
Python truthiness: both a missing record and an empty dict return early. -/
def message_handler (states : UserStates) (chatId : Int) (text : String) :
    UserStates × List Action :=
  match List.lookup chatId states with
  | none => (states, [])
  | some u =>
    if u = emptyUserData then (states, [])
    else if u.state = some "waiting_for_tomorrow_goal" then
      let u1 : UserData := { u with state := some "idle" }
      (dictSet states chatId u1,
       [Action.logInfo ("[" ++ toString chatId ++ "] Цель на завтра: " ++ text),
        Action.replyText ackMsg])
    else (states, [])

-- === daily job ===

def promptKeyboard (q : String) : Keyboard :=
  [[("❌", q ++ "|no"), ("✅", q ++ "|yes")]]

/-- The prompt loop of `send_daily_questions`: `env i` is the message id the
transport returns for the `i`-th send. -/
def dispatchPrompts (chatId : Int) (env : Nat → Nat) :
    Nat → List String → List (String × Nat) → List (String × Nat) × List Action
  | _, [], msgs => (msgs, [])
  | i, q :: qs, msgs =>
    let act := Action.sendMessage chatId q (some (promptKeyboard q))
    let msgs1 := dictSet msgs q (env i)
    let r := dispatchPrompts chatId env (i + 1) qs msgs1
    (r.1, act :: r.2)

/-- `send_daily_questions`, the JobQueue callback. -/
def send_daily_questions (states : UserStates) (chatId : Int) (env : Nat → Nat) :
    UserStates × List Action :=
  let states0 := setdefaultD states chatId emptyUserData
  let u := (List.lookup chatId states0).getD emptyUserData
  let u1 : UserData :=
    { u with state := some "answering",
             answers := some (QUESTIONS.map (fun q => (q, (none : Option String)))),
             messages := some [] }
  let r := dispatchPrompts chatId env 0 QUESTIONS []
  let u2 : UserData := { u1 with messages := some r.1 }
  (dictSet states0 chatId u2, r.2)

-- === derived notions used by the properties ===

/-- Is this action the follow-up question sent to `chatId`
(`context.bot.send_message(chat_id, "Цель на завтра?")`)? -/
def isFollowUpMsg (chatId : Int) : Action → Bool
  | .sendMessage c t none => c = chatId && t = "Цель на завтра?"
  | _ => false

/-- How many follow-up questions an action list contains. -/
def countFollowUp (chatId : Int) (acts : List Action) : Nat :=
  (acts.filter (isFollowUpMsg chatId)).length

/-- Process a list of callback payloads for one chat, counting how many of
them emitted the follow-up question. -/
def runCallbacks (chatId : Int) (states : UserStates) :
    List String → UserStates × Nat
  | [] => (states, 0)
  | p :: ps =>
    let r1 := stepCallback chatId states p
    let r2 := runCallbacks chatId r1.1 ps
    (r2.1, countFollowUp chatId r1.2 + r2.2)

/-- The scheduling-relevant global state: `user_states` and the JobQueue. -/
structure SysState where
  userStates : UserStates
  jobs : List Job
deriving DecidableEq, Repr

/-- State at process start: no sessions, no jobs. -/
def initState : SysState := ⟨[], []⟩

/-- The commands that touch the scheduler. -/
inductive Op where
  | start (chatId : Int)
  | settime (chatId : Int) (args : List String)
deriving DecidableEq, Repr

/-- Effect of one command on the scheduling-relevant state. -/
def applyOp (st : SysState) : Op → SysState
  | .start c =>
    let r := start_command st.userStates st.jobs c
    ⟨r.1, r.2.1⟩
  | .settime c args =>
    let r := settime_command st.userStates st.jobs c args
    ⟨r.1, r.2.1⟩

/-- Effect of a command sequence. -/
def applyOps (st : SysState) (ops : List Op) : SysState :=
  ops.foldl applyOp st

/-- Does this command (re)schedule the daily trigger of `id`?  `/start`
always does; `/settime` only when its argument validates. -/
def schedFor (op : Op) (id : Int) : Bool :=
  match op with
  | .start c => c = id
  | .settime c args =>
    c = id &&
      (match args with
       | [t] => (settimeParse t).isSome
       | _ => false)

/-- The hour `start_command` schedules at: the stored one, else the default. -/
def effHour (st : SysState) (c : Int) : Int :=
  (((List.lookup c st.userStates).getD emptyUserData).send_hour).getD DEFAULT_HOUR

/-- The minute `start_command` schedules at. -/
def effMinute (st : SysState) (c : Int) : Int :=
  (((List.lookup c st.userStates).getD emptyUserData).send_minute).getD DEFAULT_MINUTE

/-- A full concrete cycle for chat 7: trigger fires, the four prompts are
answered, the free-text follow-up arrives. -/
def fullCycleRun : UserStates :=
  let s1 := (send_daily_questions [] 7 (fun i => i + 100)).1
  let s2 := (stepCallback 7 s1 "Цель на сегодня|yes").1
  let s3 := (stepCallback 7 s2 "Новое|no").1
  let s4 := (stepCallback 7 s3 "Развитие|yes").1
  let s5 := (stepCallback 7 s4 "Спорт|yes").1
  (message_handler s5 7 "Run 5k").1

-- === helper lemmas ===

theorem lookup_dictSet_self {κ α : Type} [DecidableEq κ] (d : List (κ × α)) (k : κ) (v : α) :
    List.lookup k (dictSet d k v) = some v := by
  induction d with
  | nil => simp [dictSet, List.lookup]
  | cons p rest ih =>
    obtain ⟨k1, v1⟩ := p
    by_cases h : k1 = k
    · subst h; simp [dictSet, List.lookup]
    · have hb : (k == k1) = false := beq_eq_false_iff_ne.mpr (Ne.symm h)
      simp only [dictSet, if_neg h, List.lookup, hb]
      exact ih

theorem lookup_dictSet_ne {κ α : Type} [DecidableEq κ] (d : List (κ × α)) (k k1 : κ) (v : α)
    (h : k ≠ k1) : List.lookup k (dictSet d k1 v) = List.lookup k d := by
  have hb : (k == k1) = false := beq_eq_false_iff_ne.mpr h
  induction d with
  | nil => simp [dictSet, List.lookup, hb]
  | cons p rest ih =>
    obtain ⟨k2, v2⟩ := p
    by_cases h2 : k2 = k1
    · subst h2
      simp only [dictSet, if_pos rfl, List.lookup, hb]
    · simp only [dictSet, if_neg h2, List.lookup]
      by_cases h3 : k = k2
      · subst h3; simp
      · have hb3 : (k == k2) = false := beq_eq_false_iff_ne.mpr h3
        simp only [hb3, ih]

theorem state_ne_empty {u : UserData} {x : String} (h : u.state = some x) :
    u ≠ emptyUserData := by
  intro he; rw [he] at h; simp [emptyUserData] at h

-- branch characterizations of `button_callback`

theorem bc_no_session (s : UserStates) (c : Int) (p : String) (o : Bool)
    (h : List.lookup c s = none) :
    button_callback s c p o = .ok (s, [Action.answerCallbackQuery]) := by
  simp only [button_callback, h]

theorem bc_wrong_state (s : UserStates) (c : Int) (p : String) (o : Bool)
    (u : UserData) (h1 : List.lookup c s = some u)
    (h2 : u = emptyUserData ∨ u.state ≠ some "answering") :
    button_callback s c p o = .ok (s, [Action.answerCallbackQuery]) := by
  simp only [button_callback, h1]
  rw [if_pos h2]

theorem guard_false {u : UserData} (h : u.state = some "answering") :
    ¬(u = emptyUserData ∨ u.state ≠ some "answering") := by
  rintro (rfl | hs)
  · simp [emptyUserData] at h
  · exact hs h

theorem bc_unpack (s : UserStates) (c : Int) (p : String) (o : Bool)
    (u : UserData) (l : List String) (h1 : List.lookup c s = some u)
    (h2 : u.state = some "answering") (hsplit : pySplit '|' p = l)
    (hlen : l.length ≠ 2) :
    button_callback s c p o = .error (.unpackError, s, [Action.answerCallbackQuery]) := by
  simp only [button_callback, h1]
  rw [if_neg (guard_false h2)]
  rcases l with _ | ⟨x, _ | ⟨y, _ | ⟨z, r⟩⟩⟩
  · simp only [hsplit]
  · simp only [hsplit]
  · exact absurd rfl hlen
  · simp only [hsplit]

theorem bc_keyerror (s : UserStates) (c : Int) (p : String) (o : Bool)
    (u : UserData) (q a : String) (h1 : List.lookup c s = some u)
    (h2 : u.state = some "answering") (hsplit : pySplit '|' p = [q, a])
    (hans : u.answers = none) :
    button_callback s c p o = .error (.keyError, s, [Action.answerCallbackQuery]) := by
  simp only [button_callback, h1]
  rw [if_neg (guard_false h2)]
  simp only [hsplit, hans]

theorem bc_dup (s : UserStates) (c : Int) (p : String) (o : Bool)
    (u : UserData) (ans : List (String × Option String)) (q a : String)
    (h1 : List.lookup c s = some u) (h2 : u.state = some "answering")
    (hsplit : pySplit '|' p = [q, a]) (hans : u.answers = some ans)
    (hq : (List.lookup q ans).getD none ≠ none) :
    button_callback s c p o = .ok (s, [Action.answerCallbackQuery]) := by
  simp only [button_callback, h1]
  rw [if_neg (guard_false h2)]
  simp only [hsplit, hans]
  rw [if_pos hq]

theorem bc_record (s : UserStates) (c : Int) (p : String) (o : Bool)
    (u : UserData) (ans : List (String × Option String)) (q a : String)
    (h1 : List.lookup c s = some u) (h2 : u.state = some "answering")
    (hsplit : pySplit '|' p = [q, a]) (hans : u.answers = some ans)
    (hq : (List.lookup q ans).getD none = none) :
    button_callback s c p o =
      (if allAnswered (dictSet ans q (some a)) then
        .ok (dictSet s c { u with answers := some (dictSet ans q (some a)),
                                  state := some "waiting_for_tomorrow_goal" },
             [Action.answerCallbackQuery,
              Action.editMarkup
                (if a = "yes" then [[("✅", "chosen")]] else [[("❌", "chosen")]]),
              Action.sendMessage c "Цель на завтра?" none])
      else
        .ok (dictSet s c { u with answers := some (dictSet ans q (some a)) },
             [Action.answerCallbackQuery,
              Action.editMarkup
                (if a = "yes" then [[("✅", "chosen")]] else [[("❌", "chosen")]])])) := by
  simp only [button_callback, h1]
  rw [if_neg (guard_false h2)]
  simp only [hsplit, hans]
  rw [if_neg (not_ne_iff.mpr hq)]
  rfl

-- === claims ===

/-- C6: for every session in any state and any prior answer contents, a
trigger fire (`send_daily_questions`) sets the state to `answering` and
resets the answers mapping so that all four fixed keys are present and
unanswered, and resets the prompt references (`messages`) to the handles of
the newly rendered prompts. -/
theorem c6_trigger_resets_cycle (s : UserStates) (c : Int) (env : Nat → Nat) :
    ∃ u1, List.lookup c (send_daily_questions s c env).1 = some u1 ∧
      u1.state = some "answering" ∧
      u1.answers = some [("Цель на сегодня", none), ("Новое", none),
                         ("Развитие", none), ("Спорт", none)] ∧
      u1.messages = some [("Цель на сегодня", env 0), ("Новое", env 1),
                          ("Развитие", env 2), ("Спорт", env 3)] := by
  simp only [send_daily_questions]
  exact ⟨_, lookup_dictSet_self _ _ _, rfl, rfl, rfl⟩

/-- C9: every cycle start dispatches exactly the four fixed prompts, in the
same fixed order every cycle, each carrying exactly two mutually exclusive
choices (negative `❌`/`no` and affirmative `✅`/`yes`), and records the
returned message id (`env i`) into the prompt-reference map under the
prompt's key. -/
theorem c9_dispatch_four_prompts (s : UserStates) (c : Int) (env : Nat → Nat) :
    (send_daily_questions s c env).2 =
      [Action.sendMessage c "Цель на сегодня"
         (some [[("❌", "Цель на сегодня|no"), ("✅", "Цель на сегодня|yes")]]),
       Action.sendMessage c "Новое"
         (some [[("❌", "Новое|no"), ("✅", "Новое|yes")]]),
       Action.sendMessage c "Развитие"
         (some [[("❌", "Развитие|no"), ("✅", "Развитие|yes")]]),
       Action.sendMessage c "Спорт"
         (some [[("❌", "Спорт|no"), ("✅", "Спорт|yes")]])] ∧
    (send_daily_questions s c env).2.length = QUESTIONS.length ∧
    QUESTIONS.length = 4 ∧
    ∃ u1, List.lookup c (send_daily_questions s c env).1 = some u1 ∧
      u1.messages = some [("Цель на сегодня", env 0), ("Новое", env 1),
                          ("Развитие", env 2), ("Спорт", env 3)] := by
  refine ⟨rfl, rfl, rfl, ?_⟩
  simp only [send_daily_questions]
  exact ⟨_, lookup_dictSet_self _ _ _, rfl⟩

/-- C5 (counterexample): after a full concrete cycle — trigger fire, four
answers, free text — the session is back in state `idle` yet still carries
every recorded answer of the finished cycle: the answers mapping is neither
absent nor cleared, contradicting the claim that Idle sessions have the
mapping absent or cleared. -/
theorem c5_counterexample_answers_persist :
    (List.lookup 7 fullCycleRun).map UserData.state = some (some "idle") ∧
    (List.lookup 7 fullCycleRun).bind UserData.answers =
      some [("Цель на сегодня", some "yes"), ("Новое", some "no"),
            ("Развитие", some "yes"), ("Спорт", some "yes")] ∧
    (List.lookup 7 fullCycleRun).bind UserData.answers ≠ some [] ∧
    (List.lookup 7 fullCycleRun).bind UserData.answers ≠ none := by
  refine ⟨rfl, rfl, by decide, by decide⟩

/-- C5 (amended): the free-text event that completes a cycle flips the state
to `idle` but leaves the answers mapping untouched — the session keeps the
finished cycle's recorded answers until the next trigger fire resets them. -/
theorem c5_idle_keeps_answers_amended (s : UserStates) (c : Int) (u : UserData)
    (text : String) (h1 : List.lookup c s = some u)
    (h2 : u.state = some "waiting_for_tomorrow_goal") :
    List.lookup c (message_handler s c text).1 = some { u with state := some "idle" } ∧
    ({ u with state := some "idle" } : UserData).answers = u.answers := by
  refine ⟨?_, rfl⟩
  simp only [message_handler, h1]
  rw [if_neg (state_ne_empty h2), if_pos h2]
  exact lookup_dictSet_self _ _ _

/-- C5 (witness): the amended theorem applied to a concrete session awaiting
its follow-up. -/
theorem c5_witness :
    List.lookup 3 (message_handler
        [(3, { state := some "waiting_for_tomorrow_goal",
               answers := some [("Спорт", some "yes")] })] 3 "Run 5k").1 =
      some { state := some "idle", answers := some [("Спорт", some "yes")] } ∧
    ({ state := some "idle", answers := some [("Спорт", some "yes")] } : UserData).answers =
      some [("Спорт", some "yes")] :=
  ⟨(c5_idle_keeps_answers_amended
      [(3, { state := some "waiting_for_tomorrow_goal",
             answers := some [("Спорт", some "yes")] })] 3
      { state := some "waiting_for_tomorrow_goal",
        answers := some [("Спорт", some "yes")] } "Run 5k" rfl rfl).1, rfl⟩

/-- C7: a free-text event transitions the session to `idle`, emitting the
persist (log) action and the acknowledgement, precisely when the session
exists and is in state `waiting_for_tomorrow_goal`; in every other situation
(session in another state, or no session) it changes nothing and emits
nothing. -/
theorem c7_free_text_iff (s : UserStates) (c : Int) (text : String) :
    (∀ u, List.lookup c s = some u → u.state = some "waiting_for_tomorrow_goal" →
      message_handler s c text =
        (dictSet s c { u with state := some "idle" },
         [Action.logInfo ("[" ++ toString c ++ "] Цель на завтра: " ++ text),
          Action.replyText ackMsg])) ∧
    (∀ u, List.lookup c s = some u → u.state ≠ some "waiting_for_tomorrow_goal" →
      message_handler s c text = (s, [])) ∧
    (List.lookup c s = none → message_handler s c text = (s, [])) := by
  refine ⟨?_, ?_, ?_⟩
  · intro u h1 h2
    simp only [message_handler, h1]
    rw [if_neg (state_ne_empty h2), if_pos h2]
  · intro u h1 h2
    simp only [message_handler, h1]
    by_cases he : u = emptyUserData
    · rw [if_pos he]
    · rw [if_neg he, if_neg h2]
  · intro h1
    simp only [message_handler, h1]

/-- C7 (witness): the accepting case on a concrete awaiting session and the
ignoring case on an answering session and on a missing session. -/
theorem c7_witness :
    message_handler [(3, { state := some "waiting_for_tomorrow_goal" })] 3 "Run 5k" =
      (dictSet [(3, { state := some "waiting_for_tomorrow_goal" })] 3
         { state := some "idle" },
       [Action.logInfo ("[" ++ toString (3 : Int) ++ "] Цель на завтра: " ++ "Run 5k"),
        Action.replyText ackMsg]) ∧
    message_handler [(3, { state := some "answering" })] 3 "Run 5k" =
      ([(3, { state := some "answering" })], []) ∧
    message_handler [] 3 "Run 5k" = ([], []) :=
  ⟨(c7_free_text_iff [(3, { state := some "waiting_for_tomorrow_goal" })] 3 "Run 5k").1
     { state := some "waiting_for_tomorrow_goal" } rfl rfl,
   (c7_free_text_iff [(3, { state := some "answering" })] 3 "Run 5k").2.1
     { state := some "answering" } rfl (by decide),
   (c7_free_text_iff [] 3 "Run 5k").2.2 rfl⟩

/-- C2: answer submission is idempotent.  For a session in `answering` state,
an answer event for a key whose answer is already recorded (same or different
value) leaves the whole `user_states` map unchanged and emits only the
callback-query acknowledgement — no markup edit, no message; and an answer,
once recorded, survives any further callback event of the cycle unchanged. -/
theorem c2_answer_idempotent :
    (∀ (s : UserStates) (c : Int) (p : String) (o : Bool) (u : UserData)
       (ans : List (String × Option String)) (q v a : String),
      List.lookup c s = some u → u.state = some "answering" →
      u.answers = some ans → List.lookup q ans = some (some v) →
      pySplit '|' p = [q, a] →
      button_callback s c p o = .ok (s, [Action.answerCallbackQuery])) ∧
    (∀ (s : UserStates) (c : Int) (p : String) (u : UserData)
       (ans : List (String × Option String)) (q v : String),
      List.lookup c s = some u → u.state = some "answering" →
      u.answers = some ans → List.lookup q ans = some (some v) →
      ∃ u1 ans1, List.lookup c (stepCallback c s p).1 = some u1 ∧
        u1.answers = some ans1 ∧ List.lookup q ans1 = some (some v)) := by
  constructor
  · intro s c p o u ans q v a h1 h2 hans hq hsplit
    exact bc_dup s c p o u ans q a h1 h2 hsplit hans (by rw [hq]; simp)
  · intro s c p u ans q v h1 h2 hans hq
    rcases hsp : pySplit '|' p with _ | ⟨x, _ | ⟨y, _ | ⟨z, r⟩⟩⟩
    · rw [show stepCallback c s p = (s, [Action.answerCallbackQuery]) by
        simp [stepCallback, bc_unpack s c p true u _ h1 h2 hsp (by simp)]]
      exact ⟨u, ans, h1, hans, hq⟩
    · rw [show stepCallback c s p = (s, [Action.answerCallbackQuery]) by
        simp [stepCallback, bc_unpack s c p true u _ h1 h2 hsp (by simp)]]
      exact ⟨u, ans, h1, hans, hq⟩
    · by_cases hdup : (List.lookup x ans).getD none ≠ none
      · rw [show stepCallback c s p = (s, [Action.answerCallbackQuery]) by
          simp [stepCallback, bc_dup s c p true u ans x y h1 h2 hsp hans hdup]]
        exact ⟨u, ans, h1, hans, hq⟩
      · have hx : (List.lookup x ans).getD none = none := not_ne_iff.mp hdup
        have hxq : q ≠ x := by
          intro he; rw [← he, hq] at hx; simp at hx
        have hrec := bc_record s c p true u ans x y h1 h2 hsp hans hx
        by_cases hall : allAnswered (dictSet ans x (some y)) = true
        · rw [show stepCallback c s p =
              (dictSet s c { u with answers := some (dictSet ans x (some y)),
                                    state := some "waiting_for_tomorrow_goal" },
               [Action.answerCallbackQuery,
                Action.editMarkup
                  (if y = "yes" then [[("✅", "chosen")]] else [[("❌", "chosen")]]),
                Action.sendMessage c "Цель на завтра?" none]) by
            simp [stepCallback, hrec, hall]]
          exact ⟨_, _, lookup_dictSet_self _ _ _, rfl,
            by rw [lookup_dictSet_ne ans q x (some y) hxq]; exact hq⟩
        · rw [show stepCallback c s p =
              (dictSet s c { u with answers := some (dictSet ans x (some y)) },
               [Action.answerCallbackQuery,
                Action.editMarkup
                  (if y = "yes" then [[("✅", "chosen")]] else [[("❌", "chosen")]])]) by
            simp [stepCallback, hrec, hall]]
          exact ⟨_, _, lookup_dictSet_self _ _ _, rfl,
            by rw [lookup_dictSet_ne ans q x (some y) hxq]; exact hq⟩
    · rw [show stepCallback c s p = (s, [Action.answerCallbackQuery]) by
        simp [stepCallback, bc_unpack s c p true u _ h1 h2 hsp (by simp)]]
      exact ⟨u, ans, h1, hans, hq⟩

/-- C2 (witness): a duplicate click on the already-answered first prompt of a
concrete half-answered session is a no-op, and the recorded `yes` survives a
later event. -/
theorem c2_witness :
    button_callback
        [(7, { state := some "answering",
               answers := some [("Цель на сегодня", some "yes"), ("Новое", none)] })]
        7 "Цель на сегодня|no" true =
      .ok ([(7, { state := some "answering",
                  answers := some [("Цель на сегодня", some "yes"), ("Новое", none)] })],
           [Action.answerCallbackQuery]) ∧
    (∃ u1 ans1,
      List.lookup 7 (stepCallback 7
          [(7, { state := some "answering",
                 answers := some [("Цель на сегодня", some "yes"), ("Новое", none)] })]
          "Новое|no").1 = some u1 ∧
        u1.answers = some ans1 ∧
        List.lookup "Цель на сегодня" ans1 = some (some "yes")) :=
  ⟨c2_answer_idempotent.1 _ 7 _ true _ _ "Цель на сегодня" "yes" "no" rfl rfl rfl rfl rfl,
   c2_answer_idempotent.2 _ 7 _ _ _ "Цель на сегодня" "yes" rfl rfl rfl rfl⟩

/-- C8: the outcome of `button_callback` is the same whether the markup edit
succeeds or fails (the `try/except: pass` swallows the failure); and on a
fresh key, even with the edit failing, the answer is recorded in the session,
the edit is still attempted, and the completion check runs: if the recorded
answer completes the set the session moves to `waiting_for_tomorrow_goal` and
the follow-up question is emitted, otherwise it stays `answering`. -/
theorem c8_ui_failure_immaterial :
    (∀ (s : UserStates) (c : Int) (p : String) (o1 o2 : Bool),
      button_callback s c p o1 = button_callback s c p o2) ∧
    (∀ (s : UserStates) (c : Int) (p : String) (u : UserData)
       (ans : List (String × Option String)) (q a : String),
      List.lookup c s = some u → u.state = some "answering" →
      u.answers = some ans → pySplit '|' p = [q, a] →
      (List.lookup q ans).getD none = none →
      ∃ s1 acts, button_callback s c p false = .ok (s1, acts) ∧
        (∃ u1, List.lookup c s1 = some u1 ∧
          u1.answers = some (dictSet ans q (some a)) ∧
          List.lookup q (dictSet ans q (some a)) = some (some a)) ∧
        Action.editMarkup
            (if a = "yes" then [[("✅", "chosen")]] else [[("❌", "chosen")]]) ∈ acts ∧
        (allAnswered (dictSet ans q (some a)) = true →
          (∃ u1, List.lookup c s1 = some u1 ∧
            u1.state = some "waiting_for_tomorrow_goal") ∧
          Action.sendMessage c "Цель на завтра?" none ∈ acts) ∧
        (allAnswered (dictSet ans q (some a)) = false →
          ∃ u1, List.lookup c s1 = some u1 ∧ u1.state = some "answering")) := by
  constructor
  · intro s c p o1 o2
    rfl
  · intro s c p u ans q a h1 h2 hans hsplit hq
    have hrec := bc_record s c p false u ans q a h1 h2 hsplit hans hq
    by_cases hall : allAnswered (dictSet ans q (some a)) = true
    · rw [if_pos hall] at hrec
      refine ⟨_, _, hrec, ⟨_, lookup_dictSet_self _ _ _, rfl, lookup_dictSet_self _ _ _⟩,
        ?_, fun _ => ⟨⟨_, lookup_dictSet_self _ _ _, rfl⟩, ?_⟩, fun hf => absurd hall (by simp [hf])⟩
      · simp
      · simp
    · rw [if_neg hall] at hrec
      have hall' : allAnswered (dictSet ans q (some a)) = false := by
        revert hall; cases allAnswered (dictSet ans q (some a)) <;> simp
      refine ⟨_, _, hrec, ⟨_, lookup_dictSet_self _ _ _, rfl, lookup_dictSet_self _ _ _⟩,
        ?_, fun ht => absurd ht (by simp [hall']), fun _ => ⟨_, lookup_dictSet_self _ _ _, h2⟩⟩
      simp

/-- C8 (witness): answering the last open prompt of a concrete session with
the edit failing still records the answer and completes the cycle. -/
theorem c8_witness :
    button_callback
        [(7, { state := some "answering",
               answers := some [("Цель на сегодня", some "yes"), ("Новое", none)] })]
        7 "Новое|no" true =
      button_callback
        [(7, { state := some "answering",
               answers := some [("Цель на сегодня", some "yes"), ("Новое", none)] })]
        7 "Новое|no" false ∧
    ∃ s1 acts,
      button_callback
          [(7, { state := some "answering",
                 answers := some [("Цель на сегодня", some "yes"), ("Новое", none)] })]
          7 "Новое|no" false = .ok (s1, acts) ∧
      (∃ u1, List.lookup 7 s1 = some u1 ∧
        u1.answers = some (dictSet [("Цель на сегодня", some "yes"), ("Новое", none)]
            "Новое" (some "no")) ∧
        List.lookup "Новое" (dictSet [("Цель на сегодня", some "yes"), ("Новое", none)]
            "Новое" (some "no")) = some (some "no")) ∧
      Action.editMarkup [[("❌", "chosen")]] ∈ acts ∧
      (allAnswered (dictSet [("Цель на сегодня", some "yes"), ("Новое", none)]
          "Новое" (some "no")) = true →
        (∃ u1, List.lookup 7 s1 = some u1 ∧
          u1.state = some "waiting_for_tomorrow_goal") ∧
        Action.sendMessage 7 "Цель на завтра?" none ∈ acts) ∧
      (allAnswered (dictSet [("Цель на сегодня", some "yes"), ("Новое", none)]
          "Новое" (some "no")) = false →
        ∃ u1, List.lookup 7 s1 = some u1 ∧ u1.state = some "answering") :=
  ⟨c8_ui_failure_immaterial.1 _ 7 "Новое|no" true false,
   c8_ui_failure_immaterial.2 _ 7 "Новое|no" _ _ "Новое" "no" rfl rfl rfl rfl rfl⟩

theorem splitOnChar_ne_nil (sep : Char) (l : List Char) : splitOnChar sep l ≠ [] := by
  induction l with
  | nil => simp [splitOnChar]
  | cons c cs ih =>
    simp only [splitOnChar]
    rcases h : splitOnChar sep cs with _ | ⟨h1, t⟩
    · exact absurd h ih
    · by_cases hc : c = sep <;> simp [hc]

theorem splitOnChar_length (sep : Char) (l : List Char) :
    (splitOnChar sep l).length = l.count sep + 1 := by
  induction l with
  | nil => simp [splitOnChar]
  | cons c cs ih =>
    simp only [splitOnChar]
    rcases h : splitOnChar sep cs with _ | ⟨h1, t⟩
    · exact absurd h (splitOnChar_ne_nil sep cs)
    · rw [h] at ih
      dsimp only
      by_cases hc : c = sep
      · subst hc
        rw [if_pos rfl, List.count_cons_self]
        simp only [List.length_cons] at *
        omega
      · rw [if_neg hc, List.count_cons_of_ne (Ne.symm hc)]
        simp only [List.length_cons] at *
        omega

theorem pySplit_length (sep : Char) (s : String) :
    (pySplit sep s).length = s.toList.count sep + 1 := by
  simp [pySplit, splitOnChar_length]

/-- C10: within an `answering` session, the handler's two-way unpack of the
callback payload split on `|` raises an uncaught error exactly when the
payload does not contain exactly one separator; and the `chosen` payload — the
callback data the handler itself attaches to a collapsed prompt after
recording an answer, hence reachable while the session is still `answering` —
makes the handler raise rather than silently ignore the event. -/
theorem c10_payload_unpack :
    (∀ (s : UserStates) (c : Int) (p : String) (o : Bool) (u : UserData),
      List.lookup c s = some u → u.state = some "answering" →
      (button_callback s c p o = .error (.unpackError, s, [Action.answerCallbackQuery]) ↔
        p.toList.count '|' ≠ 1)) ∧
    (stepCallback 7 (send_daily_questions [] 7 (fun i => i + 100)).1
        "Цель на сегодня|yes").2 =
      [Action.answerCallbackQuery, Action.editMarkup [[("✅", "chosen")]]] ∧
    button_callback (stepCallback 7 (send_daily_questions [] 7 (fun i => i + 100)).1
        "Цель на сегодня|yes").1 7 "chosen" true =
      .error (.unpackError,
        (stepCallback 7 (send_daily_questions [] 7 (fun i => i + 100)).1
            "Цель на сегодня|yes").1,
        [Action.answerCallbackQuery]) := by
  refine ⟨?_, rfl, rfl⟩
  intro s c p o u h1 h2
  constructor
  · intro herr hcount
    have hlen : (pySplit '|' p).length = 2 := by
      rw [pySplit_length, hcount]
    rcases hsp : pySplit '|' p with _ | ⟨x, _ | ⟨y, _ | ⟨z, r⟩⟩⟩
    · rw [hsp] at hlen; simp at hlen
    · rw [hsp] at hlen; simp at hlen
    · rcases hans : u.answers with _ | ans
      · rw [bc_keyerror s c p o u x y h1 h2 hsp hans] at herr
        simp at herr
      · by_cases hdup : (List.lookup x ans).getD none ≠ none
        · rw [bc_dup s c p o u ans x y h1 h2 hsp hans hdup] at herr
          simp at herr
        · have hx := not_ne_iff.mp hdup
          rw [bc_record s c p o u ans x y h1 h2 hsp hans hx] at herr
          by_cases hall : allAnswered (dictSet ans x (some y)) = true
          · rw [if_pos hall] at herr; simp at herr
          · rw [if_neg hall] at herr; simp at herr
    · rw [hsp] at hlen; simp at hlen
  · intro hcount
    refine bc_unpack s c p o u (pySplit '|' p) h1 h2 rfl ?_
    rw [pySplit_length]
    omega

/-- C10 (witness): the iff applied to the concrete `answering` session of the
reachable scenario, at the `chosen` payload. -/
theorem c10_witness :
    button_callback
        [(7, { state := some "answering",
               answers := some [("Цель на сегодня", some "yes"), ("Новое", none)] })]
        7 "chosen" true =
      .error (.unpackError,
        [(7, { state := some "answering",
               answers := some [("Цель на сегодня", some "yes"), ("Новое", none)] })],
        [Action.answerCallbackQuery]) :=
  (c10_payload_unpack.1
      [(7, { state := some "answering",
             answers := some [("Цель на сегодня", some "yes"), ("Новое", none)] })]
      7 "chosen" true
      { state := some "answering",
        answers := some [("Цель на сегодня", some "yes"), ("Новое", none)] }
      rfl rfl).mpr (by decide)

-- follow-up counting machinery for C3

theorem countFollowUp_acts0 (c : Int) :
    countFollowUp c [Action.answerCallbackQuery] = 0 := rfl

theorem countFollowUp_noedit (c : Int) (kb : Keyboard) :
    countFollowUp c [Action.answerCallbackQuery, Action.editMarkup kb] = 0 := rfl

theorem countFollowUp_complete (c : Int) (kb : Keyboard) :
    countFollowUp c [Action.answerCallbackQuery, Action.editMarkup kb,
      Action.sendMessage c "Цель на завтра?" none] = 1 := by
  simp [countFollowUp, isFollowUpMsg, List.filter]

theorem step_notAnswering (c : Int) (s : UserStates) (p : String)
    (h : ∀ u, List.lookup c s = some u → u.state ≠ some "answering") :
    stepCallback c s p = (s, [Action.answerCallbackQuery]) := by
  rcases hl : List.lookup c s with _ | u
  · simp [stepCallback, bc_no_session s c p true hl]
  · simp [stepCallback, bc_wrong_state s c p true u hl (Or.inr (h u hl))]

theorem run_zero_notAnswering (c : Int) (ps : List String) :
    ∀ s : UserStates, (∀ u, List.lookup c s = some u → u.state ≠ some "answering") →
      runCallbacks c s ps = (s, 0) := by
  induction ps with
  | nil => intro s _; rfl
  | cons p ps ih =>
    intro s h
    simp only [runCallbacks, step_notAnswering c s p h, ih s h, countFollowUp_acts0]

theorem step_count_cases (c : Int) (s : UserStates) (p : String) :
    countFollowUp c (stepCallback c s p).2 = 0 ∨
    (countFollowUp c (stepCallback c s p).2 = 1 ∧
     ∃ u1, List.lookup c (stepCallback c s p).1 = some u1 ∧
       u1.state = some "waiting_for_tomorrow_goal") := by
  rcases hl : List.lookup c s with _ | u
  · left
    simp [stepCallback, bc_no_session s c p true hl, countFollowUp_acts0]
  · by_cases hg : u = emptyUserData ∨ u.state ≠ some "answering"
    · left
      simp [stepCallback, bc_wrong_state s c p true u hl hg, countFollowUp_acts0]
    · have h2 : u.state = some "answering" := by
        rcases not_or.mp hg with ⟨_, hs⟩
        exact not_not.mp hs
      rcases hsp : pySplit '|' p with _ | ⟨x, _ | ⟨y, _ | ⟨z, r⟩⟩⟩
      · left
        simp [stepCallback, bc_unpack s c p true u _ hl h2 hsp (by simp),
          countFollowUp_acts0]
      · left
        simp [stepCallback, bc_unpack s c p true u _ hl h2 hsp (by simp),
          countFollowUp_acts0]
      · rcases hans : u.answers with _ | ans
        · left
          simp [stepCallback, bc_keyerror s c p true u x y hl h2 hsp hans,
            countFollowUp_acts0]
        · by_cases hdup : (List.lookup x ans).getD none ≠ none
          · left
            simp [stepCallback, bc_dup s c p true u ans x y hl h2 hsp hans hdup,
              countFollowUp_acts0]
          · have hx := not_ne_iff.mp hdup
            have hrec := bc_record s c p true u ans x y hl h2 hsp hans hx
            by_cases hall : allAnswered (dictSet ans x (some y)) = true
            · right
              rw [if_pos hall] at hrec
              constructor
              · simp only [stepCallback, hrec]
                exact countFollowUp_complete c _
              · have hlk : List.lookup c (stepCallback c s p).1 =
                    some { u with state := some "waiting_for_tomorrow_goal",
                                  answers := some (dictSet ans x (some y)) } := by
                  simp only [stepCallback, hrec]
                  exact lookup_dictSet_self _ _ _
                exact ⟨_, hlk, rfl⟩
            · left
              rw [if_neg hall] at hrec
              simp only [stepCallback, hrec]
              exact countFollowUp_noedit c _
      · left
        simp [stepCallback, bc_unpack s c p true u _ hl h2 hsp (by simp),
          countFollowUp_acts0]

theorem run_count_le_one (c : Int) (ps : List String) :
    ∀ s : UserStates, (runCallbacks c s ps).2 ≤ 1 := by
  induction ps with
  | nil => intro s; simp [runCallbacks]
  | cons p ps ih =>
    intro s
    simp only [runCallbacks]
    rcases step_count_cases c s p with h0 | ⟨h1, u1, hu1, hw⟩
    · rw [h0]
      simpa using ih (stepCallback c s p).1
    · rw [h1]
      have hz := run_zero_notAnswering c ps (stepCallback c s p).1
        (fun u hu => by
          rw [hu1] at hu
          injection hu with hu
          rw [← hu, hw]
          simp)
      rw [hz]
      simp

/-- C3: within one cycle, the transition to `waiting_for_tomorrow_goal`
together with the follow-up question is emitted at most once over any
sequence of callback events following a trigger fire, and a single event
emits it exactly when it records the answer that makes all keys answered. -/
theorem c3_followup_transition_once :
    (∀ (s : UserStates) (c : Int) (env : Nat → Nat) (ps : List String),
      (runCallbacks c (send_daily_questions s c env).1 ps).2 ≤ 1) ∧
    (∀ (s : UserStates) (c : Int) (p : String) (u : UserData)
       (ans : List (String × Option String)) (q a : String),
      List.lookup c s = some u → u.state = some "answering" →
      u.answers = some ans → pySplit '|' p = [q, a] →
      (List.lookup q ans).getD none = none →
      (countFollowUp c (stepCallback c s p).2 = 1 ↔
        allAnswered (dictSet ans q (some a)) = true)) := by
  constructor
  · intro s c env ps
    exact run_count_le_one c ps (send_daily_questions s c env).1
  · intro s c p u ans q a h1 h2 hans hsplit hq
    have hrec := bc_record s c p true u ans q a h1 h2 hsplit hans hq
    by_cases hall : allAnswered (dictSet ans q (some a)) = true
    · rw [if_pos hall] at hrec
      simp only [stepCallback, hrec]
      exact iff_of_true (countFollowUp_complete c _) hall
    · rw [if_neg hall] at hrec
      simp only [stepCallback, hrec]
      refine iff_of_false ?_ hall
      rw [countFollowUp_noedit c _]
      simp

/-- C3 (witness): a concrete two-question-left session — the non-completing
answer does not emit the follow-up, and a fresh cycle followed by answering
all four prompts emits it at most once. -/
theorem c3_witness :
    (runCallbacks 7 (send_daily_questions [] 7 (fun i => i + 100)).1
      ["Цель на сегодня|yes", "Цель на сегодня|no", "Новое|no",
       "Развитие|yes", "Спорт|yes"]).2 ≤ 1 ∧
    ((countFollowUp 7 (stepCallback 7
        [(7, { state := some "answering",
               answers := some [("Цель на сегодня", some "yes"), ("Новое", none)] })]
        "Новое|no").2 = 1) ↔
      allAnswered (dictSet [("Цель на сегодня", some "yes"), ("Новое", none)]
        "Новое" (some "no")) = true) :=
  ⟨c3_followup_transition_once.1 [] 7 (fun i => i + 100)
     ["Цель на сегодня|yes", "Цель на сегодня|no", "Новое|no",
      "Развитие|yes", "Спорт|yes"],
   c3_followup_transition_once.2
     [(7, { state := some "answering",
            answers := some [("Цель на сегодня", some "yes"), ("Новое", none)] })]
     7 "Новое|no"
     { state := some "answering",
       answers := some [("Цель на сегодня", some "yes"), ("Новое", none)] }
     [("Цель на сегодня", some "yes"), ("Новое", none)]
     "Новое" "no" rfl rfl rfl rfl rfl⟩

-- scheduler machinery for C1

theorem filter_filter_not {α : Type} (p : α → Bool) (l : List α) :
    (l.filter (fun a => !p a)).filter p = [] := by
  induction l with
  | nil => rfl
  | cons a l ih =>
    rcases h : p a with _ | _
    · simp [List.filter_cons, h, ih]
    · simp [List.filter_cons, h, ih]

theorem filter_filter_of_imp {α : Type} (p q : α → Bool)
    (h : ∀ a, p a = true → q a = true) (l : List α) :
    (l.filter q).filter p = l.filter p := by
  induction l with
  | nil => rfl
  | cons a l ih =>
    rcases hq : q a with _ | _
    · have hp : p a = false := by
        rcases hpa : p a with _ | _
        · rfl
        · rw [h a hpa] at hq; exact hq
      simp [List.filter_cons, hq, hp, ih]
    · simp [List.filter_cons, hq, ih]

theorem triggersFor_append (id : Int) (l1 l2 : List Job) :
    triggersFor id (l1 ++ l2) = triggersFor id l1 ++ triggersFor id l2 :=
  List.filter_append _ _

theorem triggersFor_remove_self (id : Int) (jobs : List Job) :
    triggersFor id (remove_existing_job jobs JOB_NAME id) = [] :=
  filter_filter_not _ jobs

theorem triggersFor_remove_ne (id c : Int) (jobs : List Job) (h : id ≠ c) :
    triggersFor id (remove_existing_job jobs JOB_NAME c) = triggersFor id jobs := by
  refine filter_filter_of_imp _ _ ?_ jobs
  intro j hj
  simp only [Bool.and_eq_true, decide_eq_true_eq] at hj
  simp only [Bool.not_eq_true']
  rcases hb : (decide (j.name = JOB_NAME) && decide (j.data = c)) with _ | _
  · rfl
  · simp only [Bool.and_eq_true, decide_eq_true_eq] at hb
    exact absurd (hj.2 ▸ hb.2 : id = c) h

theorem triggersFor_new_self (id : Int) (h m : Int) :
    triggersFor id [mkDailyJob id h m] = [mkDailyJob id h m] := by
  simp [triggersFor, mkDailyJob, List.filter, JOB_NAME]

theorem triggersFor_new_ne (id c : Int) (h m : Int) (hne : id ≠ c) :
    triggersFor id [mkDailyJob c h m] = [] := by
  simp [triggersFor, mkDailyJob, List.filter, JOB_NAME, Ne.symm hne]

theorem lookup_append_none {κ α : Type} [DecidableEq κ] {l : List (κ × α)}
    (l2 : List (κ × α)) (k : κ) (h : List.lookup k l = none) :
    List.lookup k (l ++ l2) = List.lookup k l2 := by
  induction l with
  | nil => rfl
  | cons p rest ih =>
    obtain ⟨k1, v1⟩ := p
    rcases hb : (k == k1) with _ | _
    · simp only [List.lookup, hb] at h
      simp only [List.cons_append, List.lookup, hb]
      exact ih h
    · simp only [List.lookup, hb] at h
      exact absurd h (by simp)

theorem lookup_setdefaultD {κ α : Type} [DecidableEq κ] (d : List (κ × α)) (k : κ) (v : α) :
    List.lookup k (setdefaultD d k v) = some ((List.lookup k d).getD v) := by
  unfold setdefaultD
  rcases h : List.lookup k d with _ | w
  · rw [lookup_append_none _ k h]
    simp [List.lookup]
  · simp [h]

theorem applyOp_start_triggers (st : SysState) (c : Int) :
    triggersFor c (applyOp st (Op.start c)).jobs =
      [mkDailyJob c (effHour st c) (effMinute st c)] := by
  simp only [applyOp, start_command]
  rw [add_daily_job, triggersFor_append, triggersFor_remove_self,
    lookup_setdefaultD st.userStates c emptyUserData]
  simp only [List.nil_append, Option.getD_some]
  rw [triggersFor_new_self]
  rfl

theorem applyOp_settime_triggers (st : SysState) (c : Int) (t : String) (h m : Int)
    (hp : settimeParse t = some (h, m)) :
    triggersFor c (applyOp st (Op.settime c [t])).jobs = [mkDailyJob c h m] := by
  simp only [applyOp, settime_command, hp]
  rw [add_daily_job, triggersFor_append, triggersFor_remove_self,
    triggersFor_new_self]
  rfl

theorem applyOp_not_sched (st : SysState) (op : Op) (c : Int)
    (h : schedFor op c = false) :
    triggersFor c (applyOp st op).jobs = triggersFor c st.jobs := by
  cases op with
  | start c1 =>
    have hne : c ≠ c1 := by
      intro he
      simp [schedFor, he] at h
    simp only [applyOp, start_command]
    rw [add_daily_job, triggersFor_append, triggersFor_remove_ne c c1 st.jobs hne,
      triggersFor_new_ne c c1 _ _ hne, List.append_nil]
  | settime c1 args =>
    rcases args with _ | ⟨t, _ | ⟨x, r⟩⟩
    · rfl
    · rcases hp : settimeParse t with _ | ⟨h1, m1⟩
      · simp only [applyOp, settime_command, hp]
      · have hne : c ≠ c1 := by
          intro he
          simp [schedFor, ← he, hp] at h
        simp only [applyOp, settime_command, hp]
        rw [add_daily_job, triggersFor_append, triggersFor_remove_ne c c1 st.jobs hne,
          triggersFor_new_ne c c1 _ _ hne, List.append_nil]
    · rfl

theorem applyOp_sched_len (st : SysState) (op : Op) (c : Int)
    (h : schedFor op c = true) :
    (triggersFor c (applyOp st op).jobs).length = 1 := by
  cases op with
  | start c1 =>
    have he : c1 = c := by simpa [schedFor] using h
    subst he
    rw [applyOp_start_triggers]
    rfl
  | settime c1 args =>
    rcases args with _ | ⟨t, _ | ⟨x, r⟩⟩
    · simp [schedFor] at h
    · simp only [schedFor, Bool.and_eq_true, decide_eq_true_eq] at h
      obtain ⟨he, hs⟩ := h
      subst he
      rcases hp : settimeParse t with _ | ⟨h1, m1⟩
      · rw [hp] at hs; simp at hs
      · rw [applyOp_settime_triggers st c1 t h1 m1 hp]
        rfl
    · simp [schedFor] at h

theorem applyOps_trigger_count (c : Int) (ops : List Op) :
    ∀ st : SysState,
      (triggersFor c (applyOps st ops).jobs).length =
        if ops.any (fun op => schedFor op c) then 1
        else (triggersFor c st.jobs).length := by
  induction ops with
  | nil => intro st; simp [applyOps]
  | cons op ops ih =>
    intro st
    have hfold : applyOps st (op :: ops) = applyOps (applyOp st op) ops := rfl
    rw [hfold, ih (applyOp st op)]
    rcases hb : schedFor op c with _ | _
    · rw [applyOp_not_sched st op c hb]
      simp [List.any_cons, hb]
    · have hlen := applyOp_sched_len st op c hb
      simp only [List.any_cons, hb, Bool.true_or, if_true]
      rcases hany : ops.any (fun op => schedFor op c) with _ | _
      · simp only [hany, Bool.false_eq_true, if_false] at *
        exact hlen
      · simp [hany]

/-- C1: starting from process start, after any sequence of `/start` and
`/settime` commands exactly one daily trigger is registered for every
identifier one of them scheduled (and none for any other identifier); a
successful `/settime HH:MM` leaves exactly the one new daily job at the
requested time for that identifier, `/start` the one at the session's
stored (or default) time, and a command that does not schedule for an
identifier leaves that identifier's triggers untouched. -/
theorem c1_single_trigger_per_identifier :
    (∀ (ops : List Op) (id : Int),
      (triggersFor id (applyOps initState ops).jobs).length =
        if ops.any (fun op => schedFor op id) then 1 else 0) ∧
    (∀ (st : SysState) (c : Int) (t : String) (h m : Int),
      settimeParse t = some (h, m) →
      triggersFor c (applyOp st (Op.settime c [t])).jobs = [mkDailyJob c h m]) ∧
    (∀ (st : SysState) (c : Int),
      triggersFor c (applyOp st (Op.start c)).jobs =
        [mkDailyJob c (effHour st c) (effMinute st c)]) ∧
    (∀ (st : SysState) (op : Op) (c : Int), schedFor op c = false →
      triggersFor c (applyOp st op).jobs = triggersFor c st.jobs) := by
  refine ⟨?_, applyOp_settime_triggers, applyOp_start_triggers, applyOp_not_sched⟩
  intro ops id
  rw [applyOps_trigger_count id ops initState]
  rfl

/-- C1 (witness): `/settime 02:30` then `/settime 03:15` for chat 1 leaves
exactly one trigger for chat 1, firing at 03:15; a command of chat 5 does not
touch chat 9's triggers. -/
theorem c1_witness :
    (triggersFor 1 (applyOps initState
        [Op.settime 1 ["02:30"], Op.settime 1 ["03:15"]]).jobs).length = 1 ∧
    triggersFor 1 (applyOp ⟨[], [mkDailyJob 1 2 30]⟩ (Op.settime 1 ["03:15"])).jobs =
      [mkDailyJob 1 3 15] ∧
    triggersFor 9 (applyOp ⟨[], [mkDailyJob 9 2 30]⟩ (Op.start 5)).jobs =
      [mkDailyJob 9 2 30] :=
  ⟨by
    rw [c1_single_trigger_per_identifier.1
      [Op.settime 1 ["02:30"], Op.settime 1 ["03:15"]] 1]
    decide,
   c1_single_trigger_per_identifier.2.1 ⟨[], [mkDailyJob 1 2 30]⟩ 1 "03:15" 3 15 (by decide),
   by
    rw [c1_single_trigger_per_identifier.2.2.2 ⟨[], [mkDailyJob 9 2 30]⟩ (Op.start 5) 9
      (by decide)]
    decide⟩

/-- C4 (counterexample): `/settime 25:00` from a previously unknown chat is
rejected — the argument fails validation, no trigger is removed or added, an
error reply is emitted — yet a session record IS created: `user_states`
gains an (empty) entry for the chat, because the lookup-or-create runs before
any validation.  This falsifies the claim that no session record is created
or modified on malformed input. -/
theorem c4_counterexample_record_created :
    settimeParse "25:00" = none ∧
    (settime_command [] [] 42 ["25:00"]).1 = [(42, emptyUserData)] ∧
    (settime_command [] [] 42 ["25:00"]).1 ≠ [] ∧
    (settime_command [] [] 42 ["25:00"]).2.1 = [] ∧
    (settime_command [] [] 42 ["25:00"]).2.2 = [Action.replyText settimeBadTimeMsg] := by
  exact ⟨by decide, by decide, by decide, by decide, by decide⟩

/-- C4 (amended): on malformed `/settime` input (wrong argument count, or an
argument that fails the split/parse/range validation) the command reports a
user-visible error, leaves the job queue untouched and mutates no session
field; the sole state change is the `setdefault` that creates an empty
session record for a previously unknown identifier. -/
theorem c4_malformed_settime_amended (s : UserStates) (jobs : List Job) (c : Int)
    (args : List String)
    (h : (∀ t, args ≠ [t]) ∨ ∃ t, args = [t] ∧ settimeParse t = none) :
    (settime_command s jobs c args).2.1 = jobs ∧
    (settime_command s jobs c args).1 = setdefaultD s c emptyUserData ∧
    ((settime_command s jobs c args).2.2 = [Action.replyText settimeUsageMsg] ∨
     (settime_command s jobs c args).2.2 = [Action.replyText settimeBadTimeMsg]) := by
  rcases h with h | ⟨t, rfl, hp⟩
  · rcases args with _ | ⟨t, _ | ⟨x, r⟩⟩
    · exact ⟨rfl, rfl, Or.inl rfl⟩
    · exact absurd rfl (h t)
    · exact ⟨rfl, rfl, Or.inl rfl⟩
  · simp [settime_command, hp]

/-- C4 (witness): the amended theorem at a wrong argument count and at an
out-of-range time, on a chat that already has a session. -/
theorem c4_witness :
    (settime_command [(42, emptyUserData)] [] 42 []).2.1 = [] ∧
    (settime_command [(42, emptyUserData)] [] 42 []).1 =
      setdefaultD [(42, emptyUserData)] 42 emptyUserData ∧
    ((settime_command [(42, emptyUserData)] [] 42 []).2.2 =
       [Action.replyText settimeUsageMsg] ∨
     (settime_command [(42, emptyUserData)] [] 42 []).2.2 =
       [Action.replyText settimeBadTimeMsg]) ∧
    (settime_command [] [] 42 ["99:99"]).2.1 = [] ∧
    (settime_command [] [] 42 ["99:99"]).1 = setdefaultD [] 42 emptyUserData ∧
    ((settime_command [] [] 42 ["99:99"]).2.2 = [Action.replyText settimeUsageMsg] ∨
     (settime_command [] [] 42 ["99:99"]).2.2 = [Action.replyText settimeBadTimeMsg]) := by
  obtain ⟨h1, h2, h3⟩ := c4_malformed_settime_amended [(42, emptyUserData)] [] 42 []
    (Or.inl (fun t ht => List.noConfusion ht))
  obtain ⟨h4, h5, h6⟩ := c4_malformed_settime_amended [] [] 42 ["99:99"]
    (Or.inr ⟨"99:99", rfl, by decide⟩)
  exact ⟨h1, h2, h3, h4, h5, h6⟩

end DailyBot
